import Mathlib

/-!
# Verification of the DebtWise financial calculators

A shallow embedding, in Lean 4, of the debt payoff planning engine
(`app/services/debt.py`) and the budget period/rollover engine
(`app/services/budget.py`) of the DebtWise backend, together with proofs
about the embedded functions.

Conventions of the embedding:
* Python `Decimal` values are modelled as exact rationals (`ℚ`);
  the two quantization modes used by the source (`quantize(Decimal("0.01"))`
  with the default `ROUND_HALF_EVEN`, and explicit `ROUND_HALF_UP`) are
  modelled by `quantize2` and `quantize2up` below.
* Python `date` values are modelled either as ordinal day numbers (`ℤ`) when
  only day arithmetic is involved, or as a year/month/day structure
  (`PyDate`) when `relativedelta` calendar arithmetic is involved.
* Database state is modelled explicitly (`Db`); session mutation becomes
  explicit value passing.
-/

set_option maxRecDepth 8000

namespace DebtWise

/-- Rounding to an integer, half away from zero: Python's `ROUND_HALF_UP`. -/
def roundHalfUp (q : ℚ) : ℤ :=
  if 0 ≤ q then ⌊q + 1/2⌋ else -⌊-q + 1/2⌋

/-- Rounding to an integer, ties to even: Python `Decimal`'s default
`ROUND_HALF_EVEN`. -/
def roundHalfEven (q : ℚ) : ℤ :=
  let f := ⌊q⌋
  if q - f < 1/2 then f
  else if 1/2 < q - f then f + 1
  else if Even f then f else f + 1

/-- Model of `x.quantize(Decimal("0.01"))` with the context default rounding
(`ROUND_HALF_EVEN`). -/
def quantize2 (q : ℚ) : ℚ := (roundHalfEven (q * 100) : ℚ) / 100

/-- Model of `x.quantize(Decimal("0.01"), rounding=ROUND_HALF_UP)`. -/
def quantize2up (q : ℚ) : ℚ := (roundHalfUp (q * 100) : ℚ) / 100

/-- Model of `DebtStatus` enumeration from `app/models/debt.py`. -/
inductive DebtStatus where
  | active
  | paid_off
  | in_collections
  | written_off
  deriving DecidableEq, Repr

/-- The fields of the `Debt` model (`app/models/debt.py`) used by the
debt service calculators. -/
structure Debt where
  id : ℕ
  user_id : ℕ
  name : String
  original_amount : ℚ
  current_balance : ℚ
  interest_rate : ℚ
  minimum_payment : ℚ
  status : DebtStatus
  is_active : Bool
  deriving DecidableEq, Repr

/-- The `while remaining_balance > 0 and months < 1000` loop of
`DebtService.calculate_payoff_time`, with the remaining permitted
iterations (`1000 - months`) as structural fuel. -/
def payoffLoop (monthly_rate payment_amount : ℚ) :
    ℕ → ℚ → ℚ → ℕ → ℕ × ℚ
  | 0, _, total_interest, months => (months, total_interest)
  | fuel + 1, remaining_balance, total_interest, months =>
    if 0 < remaining_balance then
      let interest_charge := remaining_balance * monthly_rate
      let principal_payment := payment_amount - interest_charge
      let pi :=
        if remaining_balance < principal_payment then
          (remaining_balance,
            remaining_balance * monthly_rate * (remaining_balance / payment_amount))
        else
          (principal_payment, interest_charge)
      payoffLoop monthly_rate payment_amount fuel
        (remaining_balance - pi.1) (total_interest + pi.2) (months + 1)
    else
      (months, total_interest)

/-- Model of `DebtService.calculate_payoff_time` (`app/services/debt.py`):
returns `(months_to_payoff, total_interest)`. -/
def calculate_payoff_time (balance interest_rate payment_amount : ℚ) :
    ℤ × ℚ :=
  if balance ≤ 0 ∨ payment_amount ≤ 0 then (0, 0)
  else
    let monthly_rate := interest_rate / 100 / 12
    let min_payment := balance * monthly_rate
    if payment_amount ≤ min_payment then (-1, -1)
    else
      let mi := payoffLoop monthly_rate payment_amount 1000 balance 0 0
      if 1000 ≤ mi.1 then (-1, -1)
      else ((mi.1 : ℤ), quantize2 mi.2)

/-- Model of `DebtService._calculate_payment_split` (`app/services/debt.py`):
splits a payment into `(principal, interest)`. -/
def calculate_payment_split (balance annual_rate payment : ℚ) : ℚ × ℚ :=
  let monthly_rate := annual_rate / 100 / 12
  let interest := quantize2up (balance * monthly_rate)
  let pi :=
    if payment < interest then ((0 : ℚ), payment)
    else (payment - interest, interest)
  if balance < pi.1 then (balance, payment - balance) else pi

/-- The `PayoffStrategy` constants from `app/schemas/debt.py` (a plain
`str` subclass, so strategies are strings). -/
def PayoffStrategy.SNOWBALL : String := "snowball"

/-- See `PayoffStrategy.SNOWBALL`. -/
def PayoffStrategy.AVALANCHE : String := "avalanche"

/-- See `PayoffStrategy.SNOWBALL`. -/
def PayoffStrategy.CUSTOM : String := "custom"

/-- One entry of the `projections` list built by
`DebtService.generate_payoff_plan`.  Dates are ordinal day numbers. -/
structure PayoffProjection where
  debt_id : ℕ
  debt_name : String
  current_balance : ℚ
  payoff_order : ℕ
  months_to_payoff : ℤ
  payoff_date : ℤ
  total_interest : ℚ
  total_payments : ℚ
  deriving DecidableEq, Repr

/-- The dictionary returned by `DebtService.generate_payoff_plan`. -/
structure PayoffPlan where
  strategy : String
  extra_monthly_payment : ℚ
  total_months : ℤ
  payoff_date : ℤ
  total_interest_saved : ℚ
  time_saved_months : ℤ
  debts : List PayoffProjection
  deriving DecidableEq, Repr

/-- The `if debt_ids: debts = [d for d in debts if d.id in debt_ids]`
filter of `generate_payoff_plan` (an empty list is falsy in Python). -/
def selectDebts (debts : List Debt) (debt_ids : Option (List ℕ)) : List Debt :=
  match debt_ids with
  | some ids => if ids = [] then debts else debts.filter (fun d => ids.contains d.id)
  | none => debts

/-- The strategy sort of `generate_payoff_plan`: Python's stable
`list.sort(key=...)` is modelled by a stable insertion sort; snowball sorts
by ascending balance, avalanche by descending interest rate, anything else
leaves the list unchanged. -/
def sortDebts (strategy : String) (debts : List Debt) : List Debt :=
  if strategy = PayoffStrategy.SNOWBALL then
    List.insertionSort (fun a b => a.current_balance ≤ b.current_balance) debts
  else if strategy = PayoffStrategy.AVALANCHE then
    List.insertionSort (fun a b => b.interest_rate ≤ a.interest_rate) debts
  else debts

/-- The `for i, debt in enumerate(debts)` projection loop of
`generate_payoff_plan`, carrying `(i, available_extra, total_months)` and
returning the projections together with the final `total_months`. -/
def payoffProjections (today : ℤ) :
    List Debt → ℕ → ℚ → ℤ → List PayoffProjection × ℤ
  | [], _, _, total_months => ([], total_months)
  | debt :: rest, i, available_extra, total_months =>
    let payment :=
      if i = 0 then debt.minimum_payment + available_extra
      else debt.minimum_payment
    let mi := calculate_payoff_time debt.current_balance debt.interest_rate payment
    if mi.1 = -1 then
      payoffProjections today rest (i + 1) available_extra total_months
    else
      let proj : PayoffProjection :=
        { debt_id := debt.id
          debt_name := debt.name
          current_balance := debt.current_balance
          payoff_order := i + 1
          months_to_payoff := mi.1
          payoff_date := today + mi.1 * 30
          total_interest := mi.2
          total_payments := debt.current_balance + mi.2 }
      let available_extra :=
        if i = 0 then available_extra + debt.minimum_payment else available_extra
      let pt := payoffProjections today rest (i + 1) available_extra (max total_months mi.1)
      (proj :: pt.1, pt.2)

/-- The minimum-payments-only comparison loop of `generate_payoff_plan`,
folding `(min_only_months, min_only_interest)` over the debts. -/
def minOnlyFold : List Debt → ℤ → ℚ → ℤ × ℚ
  | [], min_only_months, min_only_interest => (min_only_months, min_only_interest)
  | debt :: rest, m, acc =>
    let mi := calculate_payoff_time debt.current_balance debt.interest_rate
      debt.minimum_payment
    if 0 < mi.1 then minOnlyFold rest (max m mi.1) (acc + mi.2)
    else minOnlyFold rest m acc

/-- Model of `DebtService.generate_payoff_plan` (`app/services/debt.py`).  `debts`
is the list returned by `get_user_debts(user_id)` (the user's active
debts); `today` is `date.today()` as an ordinal day. -/
def generate_payoff_plan (debts : List Debt) (strategy : String)
    (extra_payment : ℚ) (debt_ids : Option (List ℕ)) (today : ℤ) : PayoffPlan :=
  let debts := selectDebts debts debt_ids
  if debts = [] then
    { strategy
      extra_monthly_payment := extra_payment
      total_months := 0
      payoff_date := today
      total_interest_saved := 0
      time_saved_months := 0
      debts := [] }
  else
    let debts := sortDebts strategy debts
    let pt := payoffProjections today debts 0 extra_payment 0
    let mo := minOnlyFold debts 0 0
    let total_plan_interest := (pt.1.map PayoffProjection.total_interest).sum
    let interest_saved := mo.2 - total_plan_interest
    let time_saved := mo.1 - pt.2
    { strategy
      extra_monthly_payment := extra_payment
      total_months := pt.2
      payoff_date := today + pt.2 * 30
      total_interest_saved := quantize2 interest_saved
      time_saved_months := max 0 time_saved
      debts := pt.1 }

/-- Model of `DebtPaymentCreate` schema fields used by `record_payment`. -/
structure DebtPaymentCreate where
  debt_id : ℕ
  amount : ℚ
  payment_date : ℤ
  notes : Option String
  is_extra_payment : Bool
  deriving DecidableEq, Repr

/-- The `DebtPayment` model fields set by `record_payment`. -/
structure DebtPayment where
  debt_id : ℕ
  user_id : ℕ
  amount : ℚ
  payment_date : ℤ
  principal_amount : ℚ
  interest_amount : ℚ
  notes : Option String
  is_extra_payment : Bool
  deriving DecidableEq, Repr

/-- Model of `DebtService.get_debt`: the first debt with the given id belonging to
the given user. -/
def get_debt (debts : List Debt) (debt_id user_id : ℕ) : Option Debt :=
  debts.find? (fun d => d.id == debt_id && d.user_id == user_id)

/-- Replace the first element satisfying a predicate (in-place mutation of
an ORM object found by a query). -/
def replaceFirst {α : Type} : List α → (α → Bool) → α → List α
  | [], _, _ => []
  | x :: xs, pred, a => if pred x then a :: xs else x :: replaceFirst xs pred a

/-- Model of `DebtService.record_payment` (`app/services/debt.py`): returns the
created payment (or `none`) and the debt list after the balance update. -/
def record_payment (debts : List Debt) (user_id : ℕ)
    (payment_data : DebtPaymentCreate) : Option DebtPayment × List Debt :=
  match get_debt debts payment_data.debt_id user_id with
  | none => (none, debts)
  | some debt =>
    if debt.status = DebtStatus.paid_off then (none, debts)
    else
      let pi := calculate_payment_split debt.current_balance debt.interest_rate
        payment_data.amount
      let payment : DebtPayment :=
        { debt_id := payment_data.debt_id
          user_id
          amount := payment_data.amount
          payment_date := payment_data.payment_date
          principal_amount := pi.1
          interest_amount := pi.2
          notes := payment_data.notes
          is_extra_payment := payment_data.is_extra_payment }
      let new_balance := debt.current_balance - pi.1
      let debt' :=
        if new_balance ≤ 0 then
          { debt with current_balance := 0, status := DebtStatus.paid_off }
        else { debt with current_balance := new_balance }
      (some payment,
        replaceFirst debts
          (fun d => d.id == payment_data.debt_id && d.user_id == user_id) debt')

/-! ## The budget period engine (`app/services/budget.py`) -/

/-- Python `datetime.date`, as year/month/day. -/
structure PyDate where
  year : ℕ
  month : ℕ
  day : ℕ
  deriving DecidableEq, Repr

/-- Gregorian leap year test. -/
def isLeapYear (y : ℕ) : Bool :=
  y % 4 == 0 && (y % 100 != 0 || y % 400 == 0)

/-- Length of a month of the Gregorian calendar. -/
def daysInMonth (y m : ℕ) : ℕ :=
  if m = 2 then (if isLeapYear y then 29 else 28)
  else if m = 4 ∨ m = 6 ∨ m = 9 ∨ m = 11 then 30
  else 31

/-- Successor day of a calendar date. -/
def PyDate.nextDay (d : PyDate) : PyDate :=
  if d.day < daysInMonth d.year d.month then ⟨d.year, d.month, d.day + 1⟩
  else if d.month < 12 then ⟨d.year, d.month + 1, 1⟩
  else ⟨d.year + 1, 1, 1⟩

/-- Predecessor day of a calendar date. -/
def PyDate.prevDay (d : PyDate) : PyDate :=
  if 1 < d.day then ⟨d.year, d.month, d.day - 1⟩
  else if 1 < d.month then ⟨d.year, d.month - 1, daysInMonth d.year (d.month - 1)⟩
  else ⟨d.year - 1, 12, 31⟩

/-- Model of `date + timedelta(days=n)`. -/
def PyDate.addDays (d : PyDate) (n : ℕ) : PyDate := PyDate.nextDay^[n] d

/-- Model of `date - timedelta(days=n)`. -/
def PyDate.subDays (d : PyDate) (n : ℕ) : PyDate := PyDate.prevDay^[n] d

/-- Model of `date + relativedelta(months=n)`: advance the month, clamping the day
to the length of the target month. -/
def PyDate.addMonths (d : PyDate) (n : ℕ) : PyDate :=
  let m0 := d.month - 1 + n
  let y := d.year + m0 / 12
  let m := m0 % 12 + 1
  ⟨y, m, min d.day (daysInMonth y m)⟩

/-- Model of `date + relativedelta(years=n)`: advance the year, clamping the day
(Feb 29 becomes Feb 28 off leap years). -/
def PyDate.addYears (d : PyDate) (n : ℕ) : PyDate :=
  ⟨d.year + n, d.month, min d.day (daysInMonth (d.year + n) d.month)⟩

/-- Strict order on dates (lexicographic on year, month, day, which agrees
with chronological order on valid dates). -/
def PyDate.lt (a b : PyDate) : Prop :=
  a.year < b.year ∨
    (a.year = b.year ∧ (a.month < b.month ∨ (a.month = b.month ∧ a.day < b.day)))

/-- Weak order on dates. -/
def PyDate.le (a b : PyDate) : Prop := PyDate.lt a b ∨ a = b

instance : DecidableRel PyDate.lt := fun a b => by
  unfold PyDate.lt; infer_instance

instance : DecidableRel PyDate.le := fun a b => by
  unfold PyDate.le; infer_instance

/-- Model of `TransactionType` enumeration from `app/models/transaction.py`. -/
inductive TransactionType where
  | income
  | expense
  | transfer
  deriving DecidableEq, Repr

/-- The fields of the `Transaction` model used by the budget service. -/
structure Transaction where
  user_id : ℕ
  transaction_type : TransactionType
  transaction_date : PyDate
  amount : ℚ
  category_id : Option ℕ
  deriving DecidableEq, Repr

/-- The fields of the `Budget` model (`app/models/budget.py`) used by the
budget service.  `period_type` is a string, as `BudgetPeriodType` is a
`str` enum. -/
structure Budget where
  id : ℕ
  user_id : ℕ
  category_id : Option ℕ
  name : String
  period_type : String
  start_date : PyDate
  amount : ℚ
  allow_rollover : Bool
  max_rollover_periods : Option ℕ
  max_rollover_amount : Option ℚ
  is_active : Bool
  deriving DecidableEq, Repr

/-- The fields of the `BudgetPeriod` model (`app/models/budget.py`). -/
structure BudgetPeriod where
  budget_id : ℕ
  start_date : PyDate
  end_date : PyDate
  base_amount : ℚ
  rollover_amount : ℚ
  total_amount : ℚ
  spent_amount : ℚ
  remaining_amount : ℚ
  is_closed : Bool
  deriving DecidableEq, Repr

/-- The database state seen by the budget service. -/
structure Db where
  budgets : List Budget
  periods : List BudgetPeriod
  transactions : List Transaction
  deriving DecidableEq, Repr

/-- Model of `BudgetService._calculate_period_end_date` (`app/services/budget.py`);
an unknown period type raises `ValueError`. -/
def calculate_period_end_date (start_date : PyDate) (period_type : String) :
    Except String PyDate :=
  if period_type = "weekly" then .ok (start_date.addDays 6)
  else if period_type = "monthly" then .ok ((start_date.addMonths 1).subDays 1)
  else if period_type = "quarterly" then .ok ((start_date.addMonths 3).subDays 1)
  else if period_type = "yearly" then .ok ((start_date.addYears 1).subDays 1)
  else .error ("Invalid period type: " ++ period_type)

/-- Model of `BudgetService._update_period_spent_amount` (`app/services/budget.py`):
recomputes the period's cached `spent_amount` and `remaining_amount` from
the owner's expense transactions inside the period; returns the updated
period (the session object is mutated in place). -/
def update_period_spent_amount (db : Db) (period : BudgetPeriod) : BudgetPeriod :=
  match db.budgets.find? (fun b => b.id == period.budget_id) with
  | none => period
  | some budget =>
    let query := db.transactions.filter (fun t =>
      t.user_id == budget.user_id &&
      decide (t.transaction_type = TransactionType.expense) &&
      decide (PyDate.le period.start_date t.transaction_date) &&
      decide (PyDate.le t.transaction_date period.end_date))
    let query :=
      if budget.category_id.getD 0 ≠ 0 then
        query.filter (fun t => t.category_id == budget.category_id)
      else query
    let spent := (query.map Transaction.amount).sum
    { period with
        spent_amount := spent
        remaining_amount := period.total_amount - spent }

/-- Model of `BudgetService._create_initial_period`: appends the first period of a
budget to the database and refreshes its spent amount. -/
def create_initial_period (db : Db) (budget : Budget) :
    Except String (Db × BudgetPeriod) :=
  let start_date := budget.start_date
  match calculate_period_end_date start_date budget.period_type with
  | .error e => .error e
  | .ok end_date =>
    let period : BudgetPeriod :=
      { budget_id := budget.id
        start_date
        end_date
        base_amount := budget.amount
        rollover_amount := 0
        total_amount := budget.amount
        spent_amount := 0
        remaining_amount := budget.amount
        is_closed := false }
    let db1 : Db := { db with periods := db.periods ++ [period] }
    let period1 := update_period_spent_amount db1 period
    .ok ({ db with periods := db.periods ++ [period1] }, period1)

/-- The `periods_with_rollover` count query of `_create_next_period`. -/
def countRolloverPeriods (db : Db) (budget_id : ℕ) (start_date : PyDate) : ℕ :=
  (db.periods.filter (fun p =>
    p.budget_id == budget_id && decide (0 < p.rollover_amount) &&
      decide (PyDate.lt p.end_date start_date))).length

/-- The `# Calculate rollover amount` block of `_create_next_period`:
starts from the previous period's remaining amount when rollover is
enabled and that amount is positive, zeroes it when the rollover-periods
limit is reached, and caps it at the rollover-amount limit.  A falsy
(`None` or `0`) limit is skipped, as in Python. -/
def rolloverAmount (db1 : Db) (budget : Budget) (prevClosed : BudgetPeriod)
    (start_date : PyDate) : ℚ :=
  if budget.allow_rollover && decide (0 < prevClosed.remaining_amount) then
    let r := prevClosed.remaining_amount
    let r :=
      match budget.max_rollover_periods with
      | some mrp =>
        if mrp ≠ 0 then
          if mrp ≤ countRolloverPeriods db1 budget.id start_date then 0 else r
        else r
      | none => r
    match budget.max_rollover_amount with
    | some mra => if mra ≠ 0 ∧ mra < r then mra else r
    | none => r
  else 0

/-- Model of `BudgetService._create_next_period` (`app/services/budget.py`): closes
the previous period, computes the rollover subject to the budget's limits
(Python truthiness: a `None` or `0` limit is skipped) and appends the new
period.  Returns the new database state, the closed previous period and
the created period. -/
def create_next_period (db : Db) (budget : Budget)
    (previous_period : BudgetPeriod) :
    Except String (Db × BudgetPeriod × BudgetPeriod) :=
  let prevClosed :=
    if !previous_period.is_closed then
      { update_period_spent_amount db previous_period with is_closed := true }
    else previous_period
  let db1 : Db :=
    { db with periods :=
        replaceFirst db.periods (fun p => decide (p = previous_period)) prevClosed }
  let start_date := prevClosed.end_date.addDays 1
  match calculate_period_end_date start_date budget.period_type with
  | .error e => .error e
  | .ok end_date =>
    let rollover_amount : ℚ := rolloverAmount db1 budget prevClosed start_date
    let period : BudgetPeriod :=
      { budget_id := budget.id
        start_date
        end_date
        base_amount := budget.amount
        rollover_amount
        total_amount := budget.amount + rollover_amount
        spent_amount := 0
        remaining_amount := budget.amount + rollover_amount
        is_closed := false }
    let db2 : Db := { db1 with periods := db1.periods ++ [period] }
    let period1 := update_period_spent_amount db2 period
    .ok ({ db1 with periods := db1.periods ++ [period1] }, prevClosed, period1)

/-- Model of `BudgetService.get_budget`: the user's budget with the given id. -/
def get_budget (db : Db) (user_id budget_id : ℕ) : Option Budget :=
  db.budgets.find? (fun b => b.id == budget_id && b.user_id == user_id)

/-- Model of `BudgetService.get_user_budgets` with the default `active_only=True`. -/
def get_user_budgets (db : Db) (user_id : ℕ) : List Budget :=
  db.budgets.filter (fun b => b.user_id == user_id && b.is_active)

/-- Model of `BudgetService.get_current_period`: the first period of the budget
containing `today`. -/
def get_current_period (db : Db) (budget : Budget) (today : PyDate) :
    Option BudgetPeriod :=
  db.periods.find? (fun p =>
    p.budget_id == budget.id && decide (PyDate.le p.start_date today) &&
      decide (PyDate.le today p.end_date))

/-- The per-budget loop of `BudgetService.get_budget_summary`, restricted
to its database effect: for each budget with a current period, that period
is refreshed via `_update_period_spent_amount`.  (The summary dictionary
built alongside is read-only and not modelled.) -/
def summaryFold (today : PyDate) : List Budget → Db → Db
  | [], db => db
  | b :: rest, db =>
    match get_current_period db b today with
    | none => summaryFold today rest db
    | some cp =>
      let cp' := update_period_spent_amount db cp
      let db' : Db :=
        { db with periods := replaceFirst db.periods (fun p => decide (p = cp)) cp' }
      summaryFold today rest db'

/-- The database effect of `BudgetService.get_budget_summary`
(`app/services/budget.py`): selects the user's budgets (a single one when
`budget_id` is given, raising `ValueError` when it does not exist) and
refreshes each current period's spent amount. -/
def get_budget_summary_state (db : Db) (user_id : ℕ) (budget_id : Option ℕ)
    (today : PyDate) : Except String Db :=
  match budget_id with
  | some bid =>
    match get_budget db user_id bid with
    | none => .error "Budget not found"
    | some b => .ok (summaryFold today [b] db)
  | none => .ok (summaryFold today (get_user_budgets db user_id) db)

/-- Months to pay off a debt with its minimum payment only. -/
def minOnlyMonths (d : Debt) : ℤ :=
  (calculate_payoff_time d.current_balance d.interest_rate d.minimum_payment).1

/-- Total interest paid on a debt with its minimum payment only. -/
def minOnlyInterest (d : Debt) : ℚ :=
  (calculate_payoff_time d.current_balance d.interest_rate d.minimum_payment).2

/-- Claim C6 as stated: the plan's `total_interest_saved` is the sum of
every selected debt's minimum-only total interest minus the projections'
total interest, rounded to cents, and `time_saved_months` is the maximum
minimum-only months minus the plan's months, clamped at zero. -/
def savings_claim (debts : List Debt) (strategy : String) (extra_payment : ℚ)
    (debt_ids : Option (List ℕ)) (today : ℤ) : Prop :=
  (generate_payoff_plan debts strategy extra_payment debt_ids today).total_interest_saved =
    quantize2 (((sortDebts strategy (selectDebts debts debt_ids)).map minOnlyInterest).sum -
      ((generate_payoff_plan debts strategy extra_payment debt_ids today).debts.map
        PayoffProjection.total_interest).sum) ∧
  (generate_payoff_plan debts strategy extra_payment debt_ids today).time_saved_months =
    max 0 ((((sortDebts strategy (selectDebts debts debt_ids)).map minOnlyMonths).foldr max 0) -
      (generate_payoff_plan debts strategy extra_payment debt_ids today).total_months)

/-- Claim C2's description of the rollover: the previous period's
remaining amount when positive and rollover is allowed, zeroed when the
count of earlier rolled-over periods has reached `max_rollover_periods`,
and capped at `max_rollover_amount` when that cap is set. -/
def claimedRollover (db : Db) (budget : Budget) (rem : ℚ) (start_date : PyDate) : ℚ :=
  if budget.allow_rollover = true ∧ 0 < rem then
    if (match budget.max_rollover_periods with
        | some mrp => decide (mrp ≤ countRolloverPeriods db budget.id start_date)
        | none => false) = true then 0
    else
      match budget.max_rollover_amount with
      | some mra => min rem mra
      | none => rem
  else 0

/-- The sum described by claim C7: the budget owner's expense transactions
dated within the period (inclusive), restricted to the budget's category
when it has one. -/
def spentSum (db : Db) (budget : Budget) (start_date end_date : PyDate) : ℚ :=
  ((db.transactions.filter (fun t =>
      t.user_id == budget.user_id &&
      decide (t.transaction_type = TransactionType.expense) &&
      decide (PyDate.le start_date t.transaction_date) &&
      decide (PyDate.le t.transaction_date end_date) &&
      (budget.category_id.getD 0 == 0 || t.category_id == budget.category_id))).map
    Transaction.amount).sum

/-- The body of the `calculate_payoff_time` loop as a transformer of the
state `(remaining_balance, total_interest)` (identity once the balance is
cleared). -/
def payoffStep (monthly_rate payment_amount : ℚ) (s : ℚ × ℚ) : ℚ × ℚ :=
  if 0 < s.1 then
    let interest_charge := s.1 * monthly_rate
    let principal_payment := payment_amount - interest_charge
    let pi :=
      if s.1 < principal_payment then
        (s.1, s.1 * monthly_rate * (s.1 / payment_amount))
      else (principal_payment, interest_charge)
    (s.1 - pi.1, s.2 + pi.2)
  else s

/-- Modelled from the spec: the monthly compounding simulation exactly as
claim C3 words it — each month charges interest `remaining * monthly_rate`
and applies the rest of the payment to principal, clamping the principal
so it does not exceed the remaining balance (with no proration of the
final month's interest). -/
def payoffStepSpec (monthly_rate payment_amount : ℚ) (s : ℚ × ℚ) : ℚ × ℚ :=
  if 0 < s.1 then
    let interest_charge := s.1 * monthly_rate
    let principal_payment := min (payment_amount - interest_charge) s.1
    (s.1 - principal_payment, s.2 + interest_charge)
  else s

/-- Claim C3, formalized: `calculate_payoff_time` returns the number of
months after which the claim's simulation clears the balance, together
with its accumulated interest rounded to cents. -/
def payoff_time_claim (balance interest_rate payment_amount : ℚ) : Prop :=
  ∃ N : ℕ,
    (∀ k < N,
      0 < ((payoffStepSpec (interest_rate / 100 / 12) payment_amount)^[k]
        (balance, 0)).1) ∧
    ((payoffStepSpec (interest_rate / 100 / 12) payment_amount)^[N] (balance, 0)).1 ≤ 0 ∧
    calculate_payoff_time balance interest_rate payment_amount =
      ((N : ℤ), quantize2 (((payoffStepSpec (interest_rate / 100 / 12)
        payment_amount)^[N] (balance, 0)).2))

/-! ## Theorems -/

/-- The loop returns immediately once the balance is cleared. -/
theorem payoffLoop_stop {mr p rem ti : ℚ} {m : ℕ} (f : ℕ) (h : rem ≤ 0) :
    payoffLoop mr p f rem ti m = (m, ti) := by
  cases f with
  | zero => rfl
  | succ f => simp [payoffLoop, not_lt.mpr h]

/-- One non-final loop iteration: the whole payment net of interest goes to
principal. -/
theorem payoffLoop_step_noclamp {mr p rem ti : ℚ} {m : ℕ} {f : ℕ} (hf : f ≠ 0)
    (h1 : 0 < rem) (h2 : ¬ rem < p - rem * mr) :
    payoffLoop mr p f rem ti m =
      payoffLoop mr p (f - 1) (rem - (p - rem * mr)) (ti + rem * mr) (m + 1) := by
  obtain ⟨g, rfl⟩ := Nat.exists_eq_succ_of_ne_zero hf
  simp [payoffLoop, h1, h2]

/-- One final (clamped) loop iteration: the principal is clamped to the
remaining balance and the interest charged is prorated by
`remaining_balance / payment_amount`. -/
theorem payoffLoop_step_clamp {mr p rem ti : ℚ} {m : ℕ} {f : ℕ} (hf : f ≠ 0)
    (h1 : 0 < rem) (h2 : rem < p - rem * mr) :
    payoffLoop mr p f rem ti m =
      payoffLoop mr p (f - 1) (rem - rem) (ti + rem * mr * (rem / p)) (m + 1) := by
  obtain ⟨g, rfl⟩ := Nat.exists_eq_succ_of_ne_zero hf
  simp [payoffLoop, h1, h2]


/-- C8: for every balance, annual rate and payment with `balance ≥ 0` and
`payment ≥ 0`, the pair `(principal, interest)` returned by
`_calculate_payment_split` satisfies `principal + interest = payment`
exactly, with `0 ≤ principal ≤ balance`. -/
theorem calculate_payment_split_conservation
    (balance annual_rate payment : ℚ) (hb : 0 ≤ balance) (hp : 0 ≤ payment) :
    (calculate_payment_split balance annual_rate payment).1 +
        (calculate_payment_split balance annual_rate payment).2 = payment ∧
      0 ≤ (calculate_payment_split balance annual_rate payment).1 ∧
      (calculate_payment_split balance annual_rate payment).1 ≤ balance := by
  unfold calculate_payment_split
  dsimp only
  split_ifs with h1 h2 h3 <;> simp_all <;> constructor <;> linarith

/-- Concrete instance of `calculate_payment_split_conservation`. -/
theorem calculate_payment_split_conservation_witness :
    (calculate_payment_split 1000 12 100).1 +
        (calculate_payment_split 1000 12 100).2 = 100 ∧
      0 ≤ (calculate_payment_split 1000 12 100).1 ∧
      (calculate_payment_split 1000 12 100).1 ≤ 1000 :=
  calculate_payment_split_conservation 1000 12 100 (by norm_num) (by norm_num)

/-- C4: `generate_payoff_plan` orders the selected debts by strategy
before projecting payoffs: snowball sorts by ascending current balance,
avalanche by descending interest rate (each a permutation of the input),
and the projections are computed from the sorted list. -/
theorem generate_payoff_plan_strategy_order (debts : List Debt) :
    ((sortDebts PayoffStrategy.SNOWBALL debts).Perm debts ∧
      (sortDebts PayoffStrategy.SNOWBALL debts).Sorted
        (fun a b => a.current_balance ≤ b.current_balance)) ∧
    ((sortDebts PayoffStrategy.AVALANCHE debts).Perm debts ∧
      (sortDebts PayoffStrategy.AVALANCHE debts).Sorted
        (fun a b => b.interest_rate ≤ a.interest_rate)) ∧
    (∀ strategy extra_payment debt_ids today,
      (generate_payoff_plan debts strategy extra_payment debt_ids today).debts =
        (payoffProjections today (sortDebts strategy (selectDebts debts debt_ids))
          0 extra_payment 0).1) := by
  haveI i1 : IsTotal Debt (fun a b => a.current_balance ≤ b.current_balance) :=
    ⟨fun a b => le_total _ _⟩
  haveI i2 : IsTrans Debt (fun a b => a.current_balance ≤ b.current_balance) :=
    ⟨fun _ _ _ hab hbc => le_trans hab hbc⟩
  haveI i3 : IsTotal Debt (fun a b => b.interest_rate ≤ a.interest_rate) :=
    ⟨fun a b => (le_total _ _).symm⟩
  haveI i4 : IsTrans Debt (fun a b => b.interest_rate ≤ a.interest_rate) :=
    ⟨fun _ _ _ hab hbc => le_trans hbc hab⟩
  refine ⟨⟨?_, ?_⟩, ⟨?_, ?_⟩, ?_⟩
  · simpa [sortDebts, PayoffStrategy.SNOWBALL] using
      List.perm_insertionSort (fun a b : Debt => a.current_balance ≤ b.current_balance) debts
  · simpa [sortDebts, PayoffStrategy.SNOWBALL] using
      List.sorted_insertionSort (fun a b : Debt => a.current_balance ≤ b.current_balance) debts
  · simpa [sortDebts, PayoffStrategy.AVALANCHE, PayoffStrategy.SNOWBALL] using
      List.perm_insertionSort (fun a b : Debt => b.interest_rate ≤ a.interest_rate) debts
  · simpa [sortDebts, PayoffStrategy.AVALANCHE, PayoffStrategy.SNOWBALL] using
      List.sorted_insertionSort (fun a b : Debt => b.interest_rate ≤ a.interest_rate) debts
  · intro strategy extra_payment debt_ids today
    unfold generate_payoff_plan
    by_cases h : selectDebts debts debt_ids = []
    · have hs : sortDebts strategy ([] : List Debt) = [] := by
        unfold sortDebts; split_ifs <;> rfl
      simp [h, hs, payoffProjections]
    · simp [h]

/-- C5: `_calculate_period_end_date` computes the period boundary per
cadence (weekly: six days on; monthly/quarterly/yearly: one/three/twelve
calendar months on, minus one day), and raises `ValueError` on any other
period type. -/
theorem calculate_period_end_date_cadence (start_date : PyDate) :
    calculate_period_end_date start_date "weekly" = .ok (start_date.addDays 6) ∧
    calculate_period_end_date start_date "monthly" =
      .ok ((start_date.addMonths 1).subDays 1) ∧
    calculate_period_end_date start_date "quarterly" =
      .ok ((start_date.addMonths 3).subDays 1) ∧
    calculate_period_end_date start_date "yearly" =
      .ok ((start_date.addYears 1).subDays 1) ∧
    (∀ s : String, s ∉ (["weekly", "monthly", "quarterly", "yearly"] : List String) →
      calculate_period_end_date start_date s = .error ("Invalid period type: " ++ s)) := by
  refine ⟨rfl, rfl, rfl, rfl, ?_⟩
  intro s hs
  simp only [List.mem_cons, List.mem_singleton, not_or] at hs
  unfold calculate_period_end_date
  split_ifs with h1 h2 h3 h4 <;> first
    | rfl
    | exact absurd h1 hs.1
    | exact absurd h2 hs.2.1
    | exact absurd h3 hs.2.2.1
    | exact absurd h4 hs.2.2.2.1

/-- Concrete instance of `calculate_period_end_date_cadence`: a monthly
period starting Jan 31, 2024 ends Feb 28, 2024 (one calendar month on is
the clamped Feb 29, minus one day), and the unknown cadence `"daily"`
raises. -/
theorem calculate_period_end_date_cadence_witness :
    calculate_period_end_date ⟨2024, 1, 31⟩ "monthly" = .ok ⟨2024, 2, 28⟩ ∧
    calculate_period_end_date ⟨2024, 1, 31⟩ "daily" =
      .error ("Invalid period type: " ++ "daily") := by
  constructor
  · have h := (calculate_period_end_date_cadence ⟨2024, 1, 31⟩).2.1
    have hd : (((⟨2024, 1, 31⟩ : PyDate).addMonths 1).subDays 1) = ⟨2024, 2, 28⟩ := by
      decide
    rw [h, hd]
  · exact (calculate_period_end_date_cadence ⟨2024, 1, 31⟩).2.2.2.2 "daily" (by decide)

/-- C9: `record_payment` returns `None` with no state change exactly when
the debt is missing for the user or already paid off; when a payment is
recorded the updated debt's balance is never negative, and a balance
driven to zero or below is set to exactly `0.00` with status `PAID_OFF`
(otherwise the principal is simply subtracted). -/
theorem record_payment_behavior (debts : List Debt) (user_id : ℕ)
    (payment_data : DebtPaymentCreate) :
    (((record_payment debts user_id payment_data).1 = none ∧
        (record_payment debts user_id payment_data).2 = debts) ↔
      (get_debt debts payment_data.debt_id user_id = none ∨
        ∃ d, get_debt debts payment_data.debt_id user_id = some d ∧
          d.status = DebtStatus.paid_off)) ∧
    (∀ d, get_debt debts payment_data.debt_id user_id = some d →
      d.status ≠ DebtStatus.paid_off →
      ∃ d', (record_payment debts user_id payment_data).2 =
          replaceFirst debts
            (fun x => x.id == payment_data.debt_id && x.user_id == user_id) d' ∧
        0 ≤ d'.current_balance ∧
        (d.current_balance - (calculate_payment_split d.current_balance
            d.interest_rate payment_data.amount).1 ≤ 0 →
          d'.current_balance = 0 ∧ d'.status = DebtStatus.paid_off) ∧
        (0 < d.current_balance - (calculate_payment_split d.current_balance
            d.interest_rate payment_data.amount).1 →
          d'.current_balance = d.current_balance - (calculate_payment_split
            d.current_balance d.interest_rate payment_data.amount).1 ∧
          d'.status = d.status)) := by
  constructor
  · cases h : get_debt debts payment_data.debt_id user_id with
    | none => simp [record_payment, h]
    | some d =>
      by_cases hst : d.status = DebtStatus.paid_off
      · simp [record_payment, h, hst]
      · simp only [record_payment, h, if_neg hst]
        constructor
        · rintro ⟨h1, -⟩
          exact absurd h1 (by simp)
        · rintro (h1 | ⟨d', hd', hst'⟩)
          · exact absurd h1 (by simp)
          · injection hd' with hdd
            subst hdd
            exact absurd hst' hst
  · intro d hd hst
    simp only [record_payment, hd, if_neg hst]
    refine ⟨_, rfl, ?_, ?_, ?_⟩
    · dsimp only
      split_ifs with h0 <;> simp <;> linarith
    · intro hle
      rw [if_pos hle]
      exact ⟨rfl, rfl⟩
    · intro hlt
      rw [if_neg (by linarith)]
      exact ⟨rfl, rfl⟩

/-- Concrete instance of `record_payment_behavior`: recording a 30 payment
against an active zero-interest debt of balance 100. -/
theorem record_payment_behavior_witness :
    ∃ d', (record_payment
        [⟨1, 1, "card", 100, 100, 0, 10, DebtStatus.active, true⟩] 1
        ⟨1, 30, 0, none, false⟩).2 =
      replaceFirst [⟨1, 1, "card", 100, 100, 0, 10, DebtStatus.active, true⟩]
        (fun x => x.id == (1 : ℕ) && x.user_id == (1 : ℕ)) d' ∧
      0 ≤ d'.current_balance ∧
      ((100 : ℚ) - (calculate_payment_split 100 0 30).1 ≤ 0 →
        d'.current_balance = 0 ∧ d'.status = DebtStatus.paid_off) ∧
      (0 < (100 : ℚ) - (calculate_payment_split 100 0 30).1 →
        d'.current_balance = (100 : ℚ) - (calculate_payment_split 100 0 30).1 ∧
        d'.status = DebtStatus.active) :=
  (record_payment_behavior
    [⟨1, 1, "card", 100, 100, 0, 10, DebtStatus.active, true⟩] 1
    ⟨1, 30, 0, none, false⟩).2
    ⟨1, 1, "card", 100, 100, 0, 10, DebtStatus.active, true⟩ rfl (by simp)

/-- The month counter of `payoffLoop` grows by at most the fuel. -/
theorem payoffLoop_months_le (mr p : ℚ) :
    ∀ (f : ℕ) (rem ti : ℚ) (m : ℕ), (payoffLoop mr p f rem ti m).1 ≤ m + f := by
  intro f
  induction f with
  | zero => intro rem ti m; simp [payoffLoop]
  | succ f ih =>
    intro rem ti m
    rw [payoffLoop]
    split_ifs with h
    · calc (payoffLoop mr p f _ _ (m + 1)).1 ≤ m + 1 + f := ih _ _ _
        _ = m + (f + 1) := by omega
    · simp

/-- The month counter of `payoffLoop` never decreases. -/
theorem payoffLoop_months_ge (mr p : ℚ) :
    ∀ (f : ℕ) (rem ti : ℚ) (m : ℕ), m ≤ (payoffLoop mr p f rem ti m).1 := by
  intro f
  induction f with
  | zero => intro rem ti m; simp [payoffLoop]
  | succ f ih =>
    intro rem ti m
    rw [payoffLoop]
    split_ifs with h
    · calc m ≤ m + 1 := by omega
        _ ≤ (payoffLoop mr p f _ _ (m + 1)).1 := ih _ _ _
    · simp

/-- C10: `calculate_payoff_time` is total (the embedding is a total
function): it returns `(0, 0)` when `balance ≤ 0` or `payment ≤ 0`,
returns `(-1, -1)` when the payment does not exceed the first month's
interest, returns `(-1, -1)` when the loop exhausts the 1000-month safety
limit, and in every remaining case the month count lies strictly between
0 and 1000. -/
theorem calculate_payoff_time_total (balance interest_rate payment_amount : ℚ) :
    ((balance ≤ 0 ∨ payment_amount ≤ 0) →
      calculate_payoff_time balance interest_rate payment_amount = (0, 0)) ∧
    (¬ (balance ≤ 0 ∨ payment_amount ≤ 0) →
      payment_amount ≤ balance * (interest_rate / 100 / 12) →
      calculate_payoff_time balance interest_rate payment_amount = (-1, -1)) ∧
    (¬ (balance ≤ 0 ∨ payment_amount ≤ 0) →
      ¬ payment_amount ≤ balance * (interest_rate / 100 / 12) →
      (payoffLoop (interest_rate / 100 / 12) payment_amount 1000 balance 0 0).1 = 1000 →
      calculate_payoff_time balance interest_rate payment_amount = (-1, -1)) ∧
    (payoffLoop (interest_rate / 100 / 12) payment_amount 1000 balance 0 0).1 ≤ 1000 ∧
    (calculate_payoff_time balance interest_rate payment_amount = (0, 0) ∨
      calculate_payoff_time balance interest_rate payment_amount = (-1, -1) ∨
      (0 ≤ (calculate_payoff_time balance interest_rate payment_amount).1 ∧
        (calculate_payoff_time balance interest_rate payment_amount).1 < 1000)) := by
  refine ⟨?_, ?_, ?_, ?_, ?_⟩
  · intro h; rw [calculate_payoff_time, if_pos h]
  · intro h1 h2
    rw [calculate_payoff_time, if_neg h1]
    dsimp only
    rw [if_pos h2]
  · intro h1 h2 h3
    rw [calculate_payoff_time, if_neg h1]
    dsimp only
    rw [if_neg h2, if_pos (by omega)]
  · simpa using payoffLoop_months_le (interest_rate / 100 / 12) payment_amount
      1000 balance 0 0
  · unfold calculate_payoff_time
    dsimp only
    split_ifs with h1 h2 h3
    · exact Or.inl rfl
    · exact Or.inr (Or.inl rfl)
    · exact Or.inr (Or.inl rfl)
    · refine Or.inr (Or.inr ⟨by positivity, ?_⟩)
      have hle := payoffLoop_months_le (interest_rate / 100 / 12) payment_amount
        1000 balance 0 0
      push_neg at h3
      dsimp only
      exact_mod_cast h3

/-- Folding `max` over a list of integers from `0` stays nonnegative. -/
theorem foldr_max_nonneg (l : List ℤ) : 0 ≤ l.foldr max 0 := by
  induction l with
  | nil => simp
  | cons x xs ih => exact le_trans ih (by simpa using le_max_right x (xs.foldr max 0))

/-- The interest accumulator of the minimum-only fold sums the minimum-only
interest of exactly those debts with positive minimum-only months. -/
theorem minOnlyFold_snd :
    ∀ (l : List Debt) (m : ℤ) (acc : ℚ),
      (minOnlyFold l m acc).2 =
        acc + ((l.filter (fun d => decide (0 < minOnlyMonths d))).map minOnlyInterest).sum := by
  intro l
  induction l with
  | nil => intro m acc; simp [minOnlyFold]
  | cons d rest ih =>
    intro m acc
    simp only [minOnlyFold]
    by_cases h : 0 < (calculate_payoff_time d.current_balance d.interest_rate
        d.minimum_payment).1
    · rw [if_pos h, ih]
      simp [List.filter_cons, minOnlyMonths, minOnlyInterest, h]
      ring
    · rw [if_neg h, ih]
      simp [List.filter_cons, minOnlyMonths, h]

/-- The month accumulator of the minimum-only fold computes the maximum of
the minimum-only months against the (nonnegative) accumulator. -/
theorem minOnlyFold_fst :
    ∀ (l : List Debt) (m : ℤ) (acc : ℚ), 0 ≤ m →
      (minOnlyFold l m acc).1 = max m ((l.map minOnlyMonths).foldr max 0) := by
  intro l
  induction l with
  | nil => intro m acc hm; simp [minOnlyFold, max_eq_left hm]
  | cons d rest ih =>
    intro m acc hm
    simp only [minOnlyFold]
    by_cases h : 0 < (calculate_payoff_time d.current_balance d.interest_rate
        d.minimum_payment).1
    · rw [if_pos h, ih _ _ (le_trans hm (le_max_left _ _))]
      simp only [List.map_cons, List.foldr_cons, minOnlyMonths]
      rw [max_assoc]
    · rw [if_neg h, ih _ _ hm]
      simp only [List.map_cons, List.foldr_cons]
      have hd : minOnlyMonths d ≤ (rest.map minOnlyMonths).foldr max 0 :=
        le_trans (by simpa [minOnlyMonths] using not_lt.mp h) (foldr_max_nonneg _)
      rw [max_eq_right hd]

/-- Sorting the empty list is empty under every strategy. -/
theorem sortDebts_nil (strategy : String) : sortDebts strategy [] = [] := by
  unfold sortDebts; split_ifs <;> rfl

/-- Quantizing zero gives zero. -/
theorem quantize2_zero : quantize2 0 = 0 := by
  norm_num [quantize2, roundHalfEven]

/-- C6 counterexample: a single debt whose minimum payment does not cover
its interest has minimum-only total interest `-1` (the sentinel), so the
claimed saving would be `-1.00`, while the code's filtered sum gives
`0.00`. -/
theorem savings_claim_counterexample :
    ¬ savings_claim [⟨1, 1, "S", 1000, 1000, 120, 5, DebtStatus.active, true⟩]
      "snowball" 0 none 0 := by
  intro hcl
  unfold savings_claim at hcl
  obtain ⟨h1, -⟩ := hcl
  have hc : calculate_payoff_time 1000 120 5 = (-1, -1) := by
    norm_num [calculate_payoff_time]
  norm_num [generate_payoff_plan, selectDebts, sortDebts, PayoffStrategy.SNOWBALL,
    List.insertionSort, List.orderedInsert, payoffProjections, minOnlyFold,
    minOnlyInterest, hc, quantize2, roundHalfEven] at h1

/-- C6 amended: as the claim states, except that the minimum-only interest
sum ranges only over the debts whose minimum-only payoff months are
positive (the code skips the `-1` sentinel of debts whose minimum payment
cannot cover their interest, and debts with nothing to pay off). -/
theorem generate_payoff_plan_savings (debts : List Debt) (strategy : String)
    (extra_payment : ℚ) (debt_ids : Option (List ℕ)) (today : ℤ) :
    (generate_payoff_plan debts strategy extra_payment debt_ids today).total_interest_saved =
      quantize2 ((((sortDebts strategy (selectDebts debts debt_ids)).filter
          (fun d => decide (0 < minOnlyMonths d))).map minOnlyInterest).sum -
        ((generate_payoff_plan debts strategy extra_payment debt_ids today).debts.map
          PayoffProjection.total_interest).sum) ∧
    (generate_payoff_plan debts strategy extra_payment debt_ids today).time_saved_months =
      max 0 ((((sortDebts strategy (selectDebts debts debt_ids)).map minOnlyMonths).foldr max 0) -
        (generate_payoff_plan debts strategy extra_payment debt_ids today).total_months) := by
  unfold generate_payoff_plan
  by_cases h : selectDebts debts debt_ids = []
  · rw [h]
    simp [sortDebts_nil, quantize2_zero]
  · rw [if_neg h]
    dsimp only
    constructor
    · rw [minOnlyFold_snd]
      norm_num
    · rw [minOnlyFold_fst _ _ _ le_rfl,
        max_eq_right (foldr_max_nonneg _)]

/-- C1: the freed-minimum cascade is absent from the code.  With two
zero-interest debts (balance 100 / minimum 50, balance 300 / minimum 100)
under snowball with no extra payment, the second debt's projection shows
3 months — exactly its own-minimum payoff — although a payment cascading
the first debt's freed 50 minimum (150 per month) pays it off in
2 months.  (`available_extra` is accumulated in the source but never added
to any payment after the first debt.) -/
theorem generate_payoff_plan_no_cascade :
    ((generate_payoff_plan
        [⟨1, 1, "A", 100, 100, 0, 50, DebtStatus.active, true⟩,
          ⟨2, 1, "B", 300, 300, 0, 100, DebtStatus.active, true⟩]
        "snowball" 0 none 0).debts.map PayoffProjection.months_to_payoff) = [2, 3] ∧
    (calculate_payoff_time 300 0 (100 + 50)).1 = 2 := by
  have h1 : calculate_payoff_time 100 0 50 = (2, 0) := by
    have h : payoffLoop 0 50 1000 100 0 0 = (2, 0) := by
      rw [payoffLoop_step_noclamp (by norm_num) (by norm_num) (by norm_num)]
      norm_num
      rw [payoffLoop_step_noclamp (by norm_num) (by norm_num) (by norm_num)]
      norm_num
      rw [payoffLoop_stop _ (by norm_num)]
    norm_num [calculate_payoff_time, h, quantize2, roundHalfEven]
  have h2 : calculate_payoff_time 300 0 100 = (3, 0) := by
    have h : payoffLoop 0 100 1000 300 0 0 = (3, 0) := by
      rw [payoffLoop_step_noclamp (by norm_num) (by norm_num) (by norm_num)]
      norm_num
      rw [payoffLoop_step_noclamp (by norm_num) (by norm_num) (by norm_num)]
      norm_num
      rw [payoffLoop_step_noclamp (by norm_num) (by norm_num) (by norm_num)]
      norm_num
      rw [payoffLoop_stop _ (by norm_num)]
    norm_num [calculate_payoff_time, h, quantize2, roundHalfEven]
  have h3 : calculate_payoff_time 300 0 150 = (2, 0) := by
    have h : payoffLoop 0 150 1000 300 0 0 = (2, 0) := by
      rw [payoffLoop_step_noclamp (by norm_num) (by norm_num) (by norm_num)]
      norm_num
      rw [payoffLoop_step_noclamp (by norm_num) (by norm_num) (by norm_num)]
      norm_num
      rw [payoffLoop_stop _ (by norm_num)]
    norm_num [calculate_payoff_time, h, quantize2, roundHalfEven]
  constructor
  · norm_num [generate_payoff_plan, selectDebts, sortDebts, PayoffStrategy.SNOWBALL,
      List.insertionSort, List.orderedInsert, payoffProjections, h1, h2]
    rw [if_neg (by simp)]
    rfl
  · norm_num [h3]

/-- Concrete instance of `calculate_payoff_time_total`: a non-positive
balance returns `(0, 0)`, and an interest-dominated payment returns
`(-1, -1)`. -/
theorem calculate_payoff_time_total_witness :
    calculate_payoff_time (-5) 10 20 = (0, 0) ∧
    calculate_payoff_time 1000 120 5 = (-1, -1) :=
  ⟨(calculate_payoff_time_total (-5) 10 20).1 (Or.inl (by norm_num)),
    (calculate_payoff_time_total 1000 120 5).2.1 (by push_neg; norm_num)
      (by norm_num)⟩

/-- The update `_update_period_spent_amount` changes only the cached `spent_amount`
and `remaining_amount` of a period: all other fields are preserved. -/
@[simp] theorem update_period_budget_id (db : Db) (p : BudgetPeriod) :
    (update_period_spent_amount db p).budget_id = p.budget_id := by
  unfold update_period_spent_amount; split <;> rfl

/-- See `update_period_budget_id`. -/
@[simp] theorem update_period_start_date (db : Db) (p : BudgetPeriod) :
    (update_period_spent_amount db p).start_date = p.start_date := by
  unfold update_period_spent_amount; split <;> rfl

/-- See `update_period_budget_id`. -/
@[simp] theorem update_period_end_date (db : Db) (p : BudgetPeriod) :
    (update_period_spent_amount db p).end_date = p.end_date := by
  unfold update_period_spent_amount; split <;> rfl

/-- See `update_period_budget_id`. -/
@[simp] theorem update_period_base_amount (db : Db) (p : BudgetPeriod) :
    (update_period_spent_amount db p).base_amount = p.base_amount := by
  unfold update_period_spent_amount; split <;> rfl

/-- See `update_period_budget_id`. -/
@[simp] theorem update_period_rollover_amount (db : Db) (p : BudgetPeriod) :
    (update_period_spent_amount db p).rollover_amount = p.rollover_amount := by
  unfold update_period_spent_amount; split <;> rfl

/-- See `update_period_budget_id`. -/
@[simp] theorem update_period_total_amount (db : Db) (p : BudgetPeriod) :
    (update_period_spent_amount db p).total_amount = p.total_amount := by
  unfold update_period_spent_amount; split <;> rfl

/-- See `update_period_budget_id`. -/
@[simp] theorem update_period_is_closed (db : Db) (p : BudgetPeriod) :
    (update_period_spent_amount db p).is_closed = p.is_closed := by
  unfold update_period_spent_amount; split <;> rfl

/-- Replacing an element by one with the same predicate value does not
change how many elements satisfy the predicate. -/
theorem filter_length_replaceFirst {α : Type} [DecidableEq α] (q : α → Bool)
    (prev a : α) (hq : q a = q prev) :
    ∀ l : List α,
      ((replaceFirst l (fun x => decide (x = prev)) a).filter q).length =
        (l.filter q).length := by
  intro l
  induction l with
  | nil => rfl
  | cons x xs ih =>
    rw [replaceFirst]
    by_cases hx : x = prev
    · rw [if_pos (by simp [hx])]
      subst hx
      rw [List.filter_cons, List.filter_cons, hq]
      cases q x <;> simp
    · rw [if_neg (by simp [hx])]
      rw [List.filter_cons, List.filter_cons]
      cases q x <;> simp [ih]

/-- The rollover count is unchanged by closing the previous period, which
keeps its `budget_id`, `rollover_amount` and `end_date`. -/
theorem countRolloverPeriods_replaceFirst (db : Db) (prev a : BudgetPeriod)
    (hb : a.budget_id = prev.budget_id) (hr : a.rollover_amount = prev.rollover_amount)
    (he : a.end_date = prev.end_date) (bid : ℕ) (sd : PyDate) :
    countRolloverPeriods
      { db with periods := replaceFirst db.periods (fun p => decide (p = prev)) a }
      bid sd = countRolloverPeriods db bid sd := by
  unfold countRolloverPeriods
  exact filter_length_replaceFirst _ prev a (by simp [hb, hr, he]) db.periods

/-- On budgets whose rollover limits satisfy the schema constraints
(`max_rollover_periods ≥ 1`, `max_rollover_amount > 0` when set), the
code's rollover computation agrees with the claim's description. -/
theorem rolloverAmount_eq_claimed (db1 db : Db) (budget : Budget)
    (prevC : BudgetPeriod) (start_date : PyDate)
    (hcount : countRolloverPeriods db1 budget.id start_date =
      countRolloverPeriods db budget.id start_date)
    (hmrp : budget.max_rollover_periods ≠ some 0)
    (hmra : ∀ a, budget.max_rollover_amount = some a → 0 < a) :
    rolloverAmount db1 budget prevC start_date =
      claimedRollover db budget prevC.remaining_amount start_date := by
  unfold rolloverAmount claimedRollover
  by_cases hA : budget.allow_rollover = true ∧ 0 < prevC.remaining_amount
  · rw [if_pos (by simp [hA.1, hA.2]), if_pos hA]
    dsimp only
    cases hmp : budget.max_rollover_periods with
    | none =>
      simp only
      cases hma : budget.max_rollover_amount with
      | none => rfl
      | some mra =>
        have h0 : 0 < mra := hmra mra hma
        simp only
        by_cases hlt : mra < prevC.remaining_amount
        · rw [if_pos ⟨by positivity, hlt⟩, min_eq_right (le_of_lt hlt)]
          simp
        · rw [if_neg (by tauto), min_eq_left (not_lt.mp hlt)]
          simp
    | some mrp =>
      have hne : mrp ≠ 0 := by
        intro h0; exact hmrp (by rw [hmp, h0])
      simp only [if_pos hne]
      rw [hcount]
      by_cases hcnt : mrp ≤ countRolloverPeriods db budget.id start_date
      · rw [if_pos hcnt]
        simp only [decide_eq_true_eq, if_pos hcnt]
        cases hma : budget.max_rollover_amount with
        | none => rfl
        | some mra =>
          have h0 : 0 < mra := hmra mra hma
          simp only
          rw [if_neg (by rintro ⟨-, hlt⟩; exact absurd hlt (by simp [le_of_lt h0]))]
      · rw [if_neg hcnt]
        simp only [decide_eq_true_eq, if_neg hcnt]
        cases hma : budget.max_rollover_amount with
        | none => rfl
        | some mra =>
          have h0 : 0 < mra := hmra mra hma
          simp only
          by_cases hlt : mra < prevC.remaining_amount
          · rw [if_pos ⟨by positivity, hlt⟩, min_eq_right (le_of_lt hlt)]
          · rw [if_neg (by tauto), min_eq_left (not_lt.mp hlt)]
  · rw [if_neg hA, if_neg (by
      intro hb
      exact hA ⟨by simpa using (Bool.and_eq_true ..).mp hb |>.1,
        by simpa using (Bool.and_eq_true ..).mp hb |>.2⟩)]

/-- C2: on a budget satisfying the schema's rollover constraints, the
period created by `_create_next_period` carries exactly the rollover the
claim describes: the closed previous period's remaining amount when
positive and rollover is allowed, zeroed once `max_rollover_periods`
earlier periods rolled over, capped at `max_rollover_amount` when set,
and zero otherwise. -/
theorem create_next_period_rollover (db : Db) (budget : Budget)
    (previous_period prev' newp : BudgetPeriod) (db' : Db)
    (hmrp : budget.max_rollover_periods ≠ some 0)
    (hmra : ∀ a, budget.max_rollover_amount = some a → 0 < a)
    (h : create_next_period db budget previous_period = .ok (db', prev', newp)) :
    newp.rollover_amount =
      claimedRollover db budget prev'.remaining_amount
        (previous_period.end_date.addDays 1) := by
  unfold create_next_period at h
  by_cases hc : previous_period.is_closed
  · simp only [hc, Bool.not_true, Bool.false_eq_true, if_false] at h
    split at h
    · simp at h
    · simp only [Except.ok.injEq, Prod.mk.injEq] at h
      obtain ⟨hdb, hprev, hnew⟩ := h
      subst hprev
      subst hnew
      simp only [update_period_rollover_amount]
      exact rolloverAmount_eq_claimed _ db budget previous_period _
        (countRolloverPeriods_replaceFirst db previous_period previous_period
          rfl rfl rfl budget.id _) hmrp hmra
  · simp only [hc, Bool.not_false, if_true] at h
    split at h
    · simp at h
    · simp only [Except.ok.injEq, Prod.mk.injEq] at h
      obtain ⟨hdb, hprev, hnew⟩ := h
      subst hprev
      subst hnew
      set u := update_period_spent_amount db previous_period with hu
      have hend : u.end_date = previous_period.end_date := by rw [hu]; simp
      simp only [update_period_rollover_amount]
      simp only [hend]
      exact rolloverAmount_eq_claimed _ db budget _ _
        (countRolloverPeriods_replaceFirst db previous_period _
          (by simp [hu]) (by simp [hu]) (by simp [hu]) budget.id _) hmrp hmra

/-- Concrete instance of `create_next_period_rollover`: a closed January
period with 100 remaining, a monthly budget allowing unlimited rollover. -/
theorem create_next_period_rollover_witness :
    ∃ db' prev' newp,
      create_next_period
        ⟨[⟨1, 1, none, "b", "monthly", ⟨2024, 1, 1⟩, 100, true, none, none, true⟩],
          [⟨1, ⟨2024, 1, 1⟩, ⟨2024, 1, 31⟩, 100, 0, 100, 0, 100, true⟩], []⟩
        ⟨1, 1, none, "b", "monthly", ⟨2024, 1, 1⟩, 100, true, none, none, true⟩
        ⟨1, ⟨2024, 1, 1⟩, ⟨2024, 1, 31⟩, 100, 0, 100, 0, 100, true⟩ =
        .ok (db', prev', newp) ∧
      newp.rollover_amount =
        claimedRollover
          ⟨[⟨1, 1, none, "b", "monthly", ⟨2024, 1, 1⟩, 100, true, none, none, true⟩],
            [⟨1, ⟨2024, 1, 1⟩, ⟨2024, 1, 31⟩, 100, 0, 100, 0, 100, true⟩], []⟩
          ⟨1, 1, none, "b", "monthly", ⟨2024, 1, 1⟩, 100, true, none, none, true⟩
          prev'.remaining_amount
          ((⟨2024, 1, 31⟩ : PyDate).addDays 1) := by
  refine ⟨_, _, _, rfl, ?_⟩
  exact create_next_period_rollover _ _ _ _ _ _ (by simp)
    (fun a ha => by simp at ha) rfl

/-- When the period's budget is missing, `_update_period_spent_amount`
leaves the period unchanged. -/
theorem update_period_spent_amount_none (db : Db) (period : BudgetPeriod)
    (hfind : db.budgets.find? (fun b => b.id == period.budget_id) = none) :
    update_period_spent_amount db period = period := by
  unfold update_period_spent_amount
  rw [hfind]

/-- The postcondition of `_update_period_spent_amount`: the cached
`spent_amount` becomes the filtered transaction sum of claim C7 and
`remaining_amount` becomes `total_amount - spent_amount`. -/
theorem update_period_spent_eq (db : Db) (period : BudgetPeriod) (budget : Budget)
    (hfind : db.budgets.find? (fun b => b.id == period.budget_id) = some budget) :
    (update_period_spent_amount db period).spent_amount =
      spentSum db budget period.start_date period.end_date ∧
    (update_period_spent_amount db period).remaining_amount =
      (update_period_spent_amount db period).total_amount -
        (update_period_spent_amount db period).spent_amount := by
  unfold update_period_spent_amount
  rw [hfind]
  dsimp only
  refine ⟨?_, rfl⟩
  by_cases hcat : budget.category_id.getD 0 ≠ 0
  · rw [if_pos hcat]
    unfold spentSum
    rw [List.filter_filter]
    apply congrArg
    apply congrArg
    apply List.filter_congr
    intro t _
    have hc : (budget.category_id.getD 0 == 0) = false := by
      simpa using hcat
    simp only [hc, Bool.false_or]
    cases t.category_id == budget.category_id <;> simp
  · rw [if_neg hcat]
    unfold spentSum
    apply congrArg
    apply congrArg
    apply List.filter_congr
    intro t _
    have hc : (budget.category_id.getD 0 == 0) = true := by
      simpa using not_ne_iff.mp hcat
    simp [hc]

/-- The sum `spentSum` depends on the database only through its transactions. -/
theorem spentSum_congr (dbX db0 : Db) (b : Budget) (s e : PyDate)
    (htr : dbX.transactions = db0.transactions) :
    spentSum dbX b s e = spentSum db0 b s e := by
  unfold spentSum
  rw [htr]

/-- Variant of `update_period_spent_eq`, with the invariant's sum stated over any
database carrying the same transactions. -/
theorem update_invariant_general (db0 : Db) (p0 : BudgetPeriod) (b' : Budget)
    (dbX : Db)
    (hfind : db0.budgets.find? (fun b => b.id == p0.budget_id) = some b')
    (htr : dbX.transactions = db0.transactions) :
    (update_period_spent_amount db0 p0).spent_amount =
      spentSum dbX b' (update_period_spent_amount db0 p0).start_date
        (update_period_spent_amount db0 p0).end_date ∧
    (update_period_spent_amount db0 p0).remaining_amount =
      (update_period_spent_amount db0 p0).total_amount -
        (update_period_spent_amount db0 p0).spent_amount := by
  have he := update_period_spent_eq db0 p0 b' hfind
  refine ⟨?_, he.2⟩
  rw [spentSum_congr dbX db0 b' _ _ htr, update_period_start_date,
    update_period_end_date]
  exact he.1

/-- Membership in `replaceFirst`: every element was already present or is
the replacement. -/
theorem mem_replaceFirst {α : Type} (pred : α → Bool) (a x : α) :
    ∀ l : List α, x ∈ replaceFirst l pred a → x ∈ l ∨ x = a := by
  intro l
  induction l with
  | nil => intro h; exact absurd h (by simp [replaceFirst])
  | cons y ys ih =>
    rw [replaceFirst]
    by_cases hy : pred y = true
    · rw [if_pos hy]
      intro h
      rcases List.mem_cons.mp h with h | h
      · exact Or.inr h
      · exact Or.inl (List.mem_cons_of_mem _ h)
    · rw [if_neg hy]
      intro h
      rcases List.mem_cons.mp h with h | h
      · exact Or.inl (by simp [h])
      · rcases ih h with h' | h'
        · exact Or.inl (List.mem_cons_of_mem _ h')
        · exact Or.inr h'

/-- Every period present after the summary loop either was already in the
database or satisfies the spent-amount invariant. -/
theorem summaryFold_periods (today : PyDate) :
    ∀ (bs : List Budget) (db0 : Db),
      (summaryFold today bs db0).budgets = db0.budgets ∧
      (summaryFold today bs db0).transactions = db0.transactions ∧
      ∀ p ∈ (summaryFold today bs db0).periods,
        p ∈ db0.periods ∨
          ∃ b, db0.budgets.find? (fun bb => bb.id == p.budget_id) = some b ∧
            p.spent_amount = spentSum db0 b p.start_date p.end_date ∧
            p.remaining_amount = p.total_amount - p.spent_amount := by
  intro bs
  induction bs with
  | nil => intro db0; exact ⟨rfl, rfl, fun p hp => Or.inl hp⟩
  | cons b rest ih =>
    intro db0
    rw [summaryFold]
    cases hcp : get_current_period db0 b today with
    | none => exact ih db0
    | some cp =>
      obtain ⟨ihb, iht, ihm⟩ := ih
        { db0 with periods := (replaceFirst db0.periods
            (fun p => decide (p = cp)) (update_period_spent_amount db0 cp)) }
      refine ⟨ihb, iht, ?_⟩
      intro p hp
      rcases ihm p hp with hmem | ⟨bb, hbb, h1, h2⟩
      · rcases mem_replaceFirst _ _ _ _ hmem with hmem' | rfl
        · exact Or.inl hmem'
        · cases hfind : db0.budgets.find?
              (fun b' => b'.id == cp.budget_id) with
          | none =>
            rw [update_period_spent_amount_none db0 cp hfind]
            exact Or.inl (List.mem_of_find?_eq_some hcp)
          | some b' =>
            refine Or.inr ⟨b', ?_, ?_, (update_period_spent_eq db0 cp b' hfind).2⟩
            · simpa using hfind
            · simpa using (update_period_spent_eq db0 cp b' hfind).1
      · exact Or.inr ⟨bb, hbb, h1, h2⟩

/-- C7: after `_update_period_spent_amount` runs against the period's
budget, `spent_amount` is the sum of the owner's expense transactions
dated inside the period (restricted to the budget's category when set,
zero when there are none) and `remaining_amount = total_amount -
spent_amount`; the period-creation helpers and the budget-summary
operation re-establish this invariant on every period they touch. -/
theorem budget_period_spent_invariant (db : Db) :
    (∀ period budget,
      db.budgets.find? (fun b => b.id == period.budget_id) = some budget →
      (update_period_spent_amount db period).spent_amount =
        spentSum db budget period.start_date period.end_date ∧
      (update_period_spent_amount db period).remaining_amount =
        (update_period_spent_amount db period).total_amount -
          (update_period_spent_amount db period).spent_amount) ∧
    (∀ budget db' p' b', create_initial_period db budget = .ok (db', p') →
      db.budgets.find? (fun bb => bb.id == budget.id) = some b' →
      p'.spent_amount = spentSum db' b' p'.start_date p'.end_date ∧
      p'.remaining_amount = p'.total_amount - p'.spent_amount) ∧
    (∀ budget previous_period db' prev' newp,
      create_next_period db budget previous_period = .ok (db', prev', newp) →
      ∀ b', db.budgets.find? (fun bb => bb.id == budget.id) = some b' →
      newp.spent_amount = spentSum db' b' newp.start_date newp.end_date ∧
      newp.remaining_amount = newp.total_amount - newp.spent_amount) ∧
    (∀ user_id budget_id today db',
      get_budget_summary_state db user_id budget_id today = .ok db' →
      ∀ p ∈ db'.periods, p ∈ db.periods ∨
        ∃ b, db.budgets.find? (fun bb => bb.id == p.budget_id) = some b ∧
          p.spent_amount = spentSum db b p.start_date p.end_date ∧
          p.remaining_amount = p.total_amount - p.spent_amount) := by
  refine ⟨?_, ?_, ?_, ?_⟩
  · intro period budget hfind
    exact update_period_spent_eq db period budget hfind
  · intro budget db' p' b' h hfind
    unfold create_initial_period at h
    dsimp only at h
    split at h
    · simp at h
    · simp only [Except.ok.injEq, Prod.mk.injEq] at h
      obtain ⟨hdb, hp⟩ := h
      subst hp
      subst hdb
      exact ⟨(update_invariant_general _ _ b' _ hfind rfl).1,
        (update_invariant_general _ _ b' db hfind rfl).2⟩
  · intro budget previous_period db' prev' newp h b' hfind
    unfold create_next_period at h
    dsimp only at h
    split at h
    · simp at h
    · simp only [Except.ok.injEq, Prod.mk.injEq] at h
      obtain ⟨hdb, hprev, hnew⟩ := h
      subst hnew
      subst hdb
      exact ⟨(update_invariant_general _ _ b' _ hfind rfl).1,
        (update_invariant_general _ _ b' db hfind rfl).2⟩
  · intro user_id budget_id today db' h
    cases budget_id with
    | none =>
      unfold get_budget_summary_state at h
      simp only [Except.ok.injEq] at h
      subst h
      exact (summaryFold_periods today _ db).2.2
    | some bid =>
      unfold get_budget_summary_state at h
      dsimp only at h
      cases hgb : get_budget db user_id bid with
      | none =>
        rw [hgb] at h
        simp at h
      | some b =>
        rw [hgb] at h
        simp only [Except.ok.injEq] at h
        subst h
        exact (summaryFold_periods today _ db).2.2

/-- Concrete instance of `budget_period_spent_invariant`: refreshing a
January period of a 500 budget whose owner has a single 60 expense inside
the period. -/
theorem budget_period_spent_invariant_witness :
    (update_period_spent_amount
        ⟨[⟨1, 7, none, "groceries", "monthly", ⟨2024, 1, 1⟩, 500, false, none, none, true⟩],
          [⟨1, ⟨2024, 1, 1⟩, ⟨2024, 1, 31⟩, 500, 0, 500, 0, 500, false⟩],
          [⟨7, TransactionType.expense, ⟨2024, 1, 10⟩, 60, none⟩]⟩
        ⟨1, ⟨2024, 1, 1⟩, ⟨2024, 1, 31⟩, 500, 0, 500, 0, 500, false⟩).spent_amount =
      spentSum
        ⟨[⟨1, 7, none, "groceries", "monthly", ⟨2024, 1, 1⟩, 500, false, none, none, true⟩],
          [⟨1, ⟨2024, 1, 1⟩, ⟨2024, 1, 31⟩, 500, 0, 500, 0, 500, false⟩],
          [⟨7, TransactionType.expense, ⟨2024, 1, 10⟩, 60, none⟩]⟩
        ⟨1, 7, none, "groceries", "monthly", ⟨2024, 1, 1⟩, 500, false, none, none, true⟩
        (⟨1, ⟨2024, 1, 1⟩, ⟨2024, 1, 31⟩, 500, 0, 500, 0, 500, false⟩ : BudgetPeriod).start_date
        (⟨1, ⟨2024, 1, 1⟩, ⟨2024, 1, 31⟩, 500, 0, 500, 0, 500, false⟩ : BudgetPeriod).end_date ∧
    (update_period_spent_amount
        ⟨[⟨1, 7, none, "groceries", "monthly", ⟨2024, 1, 1⟩, 500, false, none, none, true⟩],
          [⟨1, ⟨2024, 1, 1⟩, ⟨2024, 1, 31⟩, 500, 0, 500, 0, 500, false⟩],
          [⟨7, TransactionType.expense, ⟨2024, 1, 10⟩, 60, none⟩]⟩
        ⟨1, ⟨2024, 1, 1⟩, ⟨2024, 1, 31⟩, 500, 0, 500, 0, 500, false⟩).remaining_amount =
      (update_period_spent_amount
        ⟨[⟨1, 7, none, "groceries", "monthly", ⟨2024, 1, 1⟩, 500, false, none, none, true⟩],
          [⟨1, ⟨2024, 1, 1⟩, ⟨2024, 1, 31⟩, 500, 0, 500, 0, 500, false⟩],
          [⟨7, TransactionType.expense, ⟨2024, 1, 10⟩, 60, none⟩]⟩
        ⟨1, ⟨2024, 1, 1⟩, ⟨2024, 1, 31⟩, 500, 0, 500, 0, 500, false⟩).total_amount -
      (update_period_spent_amount
        ⟨[⟨1, 7, none, "groceries", "monthly", ⟨2024, 1, 1⟩, 500, false, none, none, true⟩],
          [⟨1, ⟨2024, 1, 1⟩, ⟨2024, 1, 31⟩, 500, 0, 500, 0, 500, false⟩],
          [⟨7, TransactionType.expense, ⟨2024, 1, 10⟩, 60, none⟩]⟩
        ⟨1, ⟨2024, 1, 1⟩, ⟨2024, 1, 31⟩, 500, 0, 500, 0, 500, false⟩).spent_amount :=
  (budget_period_spent_invariant
      ⟨[⟨1, 7, none, "groceries", "monthly", ⟨2024, 1, 1⟩, 500, false, none, none, true⟩],
        [⟨1, ⟨2024, 1, 1⟩, ⟨2024, 1, 31⟩, 500, 0, 500, 0, 500, false⟩],
        [⟨7, TransactionType.expense, ⟨2024, 1, 10⟩, 60, none⟩]⟩).1
    ⟨1, ⟨2024, 1, 1⟩, ⟨2024, 1, 31⟩, 500, 0, 500, 0, 500, false⟩
    ⟨1, 7, none, "groceries", "monthly", ⟨2024, 1, 1⟩, 500, false, none, none, true⟩ rfl

/-- One productive loop iteration is one application of `payoffStep`. -/
theorem payoffLoop_succ_pos (mr p : ℚ) (f : ℕ) (s : ℚ × ℚ) (m : ℕ)
    (h : 0 < s.1) :
    payoffLoop mr p (f + 1) s.1 s.2 m =
      payoffLoop mr p f (payoffStep mr p s).1 (payoffStep mr p s).2 (m + 1) := by
  rw [payoffLoop, payoffStep]
  simp only [h, if_true]

/-- When the simulation clears the balance after `n ≤ fuel` steps, the
loop stops there with `n` more months on the counter. -/
theorem payoffLoop_reaches (mr p : ℚ) :
    ∀ (n : ℕ) (rem ti : ℚ) (f m : ℕ), n ≤ f →
      (∀ k < n, 0 < ((payoffStep mr p)^[k] (rem, ti)).1) →
      ((payoffStep mr p)^[n] (rem, ti)).1 ≤ 0 →
      payoffLoop mr p f rem ti m = (m + n, ((payoffStep mr p)^[n] (rem, ti)).2) := by
  intro n
  induction n with
  | zero =>
    intro rem ti f m _ _ hz
    simp only [Function.iterate_zero, id_eq] at hz ⊢
    rw [payoffLoop_stop f hz]
    simp
  | succ n ih =>
    intro rem ti f m hnf hpos hz
    have h0 : 0 < rem := by simpa using hpos 0 (Nat.succ_pos n)
    obtain ⟨g, rfl⟩ := Nat.exists_eq_succ_of_ne_zero (by omega : f ≠ 0)
    rw [payoffLoop_succ_pos mr p g (rem, ti) m h0]
    have ihh := ih (payoffStep mr p (rem, ti)).1 (payoffStep mr p (rem, ti)).2
      g (m + 1) (by omega) ?_ ?_
    · rw [ihh]
      rw [show ((payoffStep mr p (rem, ti)).1, (payoffStep mr p (rem, ti)).2) =
        payoffStep mr p (rem, ti) from rfl]
      rw [← Function.iterate_succ_apply]
      congr 1
      omega
    · intro k hk
      have := hpos (k + 1) (by omega)
      rw [Function.iterate_succ_apply] at this
      rwa [show ((payoffStep mr p (rem, ti)).1, (payoffStep mr p (rem, ti)).2) =
        payoffStep mr p (rem, ti) from rfl]
    · have := hz
      rw [Function.iterate_succ_apply] at this
      rwa [show ((payoffStep mr p (rem, ti)).1, (payoffStep mr p (rem, ti)).2) =
        payoffStep mr p (rem, ti) from rfl]

/-- When the balance stays positive for `fuel` steps, the loop exhausts
its fuel. -/
theorem payoffLoop_runs (mr p : ℚ) :
    ∀ (f : ℕ) (rem ti : ℚ) (m : ℕ),
      (∀ k < f, 0 < ((payoffStep mr p)^[k] (rem, ti)).1) →
      payoffLoop mr p f rem ti m = (m + f, ((payoffStep mr p)^[f] (rem, ti)).2) := by
  intro f
  induction f with
  | zero => intro rem ti m _; simp [payoffLoop]
  | succ f ih =>
    intro rem ti m hpos
    have h0 : 0 < rem := by simpa using hpos 0 (Nat.succ_pos f)
    rw [payoffLoop_succ_pos mr p f (rem, ti) m h0]
    have ihh := ih (payoffStep mr p (rem, ti)).1 (payoffStep mr p (rem, ti)).2
      (m + 1) ?_
    · rw [ihh]
      rw [show ((payoffStep mr p (rem, ti)).1, (payoffStep mr p (rem, ti)).2) =
        payoffStep mr p (rem, ti) from rfl]
      rw [← Function.iterate_succ_apply]
      congr 1
      omega
    · intro k hk
      have := hpos (k + 1) (by omega)
      rw [Function.iterate_succ_apply] at this
      rwa [show ((payoffStep mr p (rem, ti)).1, (payoffStep mr p (rem, ti)).2) =
        payoffStep mr p (rem, ti) from rfl]

/-- While the balance stays positive, each month pays off at least
`payment - balance * max(monthly_rate, 0)` of principal, so the remaining
balance after `k` months is at most `balance - k` times that amount. -/
theorem payoffStep_state_bound (mr p b : ℚ) (hb : 0 < b) (hp : 0 < p)
    (hmin : b * mr < p) :
    ∀ k : ℕ, (∀ j ≤ k, 0 < ((payoffStep mr p)^[j] (b, 0)).1) →
      ((payoffStep mr p)^[k] (b, 0)).1 ≤ b - k * (p - b * max mr 0) := by
  have hδpos : 0 < p - b * max mr 0 := by
    rcases le_or_lt 0 mr with hmr | hmr
    · rw [max_eq_left hmr]; linarith
    · rw [max_eq_right (le_of_lt hmr)]; linarith
  intro k
  induction k with
  | zero => intro _; simp
  | succ k ih =>
    intro hpos
    have hk : 0 < ((payoffStep mr p)^[k] (b, 0)).1 := hpos k (by omega)
    have hk1 : 0 < ((payoffStep mr p)^[k + 1] (b, 0)).1 := hpos (k + 1) le_rfl
    have hbd : ((payoffStep mr p)^[k] (b, 0)).1 ≤ b - k * (p - b * max mr 0) :=
      ih (fun j hj => hpos j (by omega))
    have hrb : ((payoffStep mr p)^[k] (b, 0)).1 ≤ b := by
      have hkq : (0 : ℚ) ≤ (k : ℚ) := Nat.cast_nonneg k
      nlinarith
    rw [Function.iterate_succ_apply'] at hk1 ⊢
    rw [payoffStep] at hk1 ⊢
    rw [if_pos hk] at hk1 ⊢
    dsimp only at hk1 ⊢
    by_cases hcl : ((payoffStep mr p)^[k] (b, 0)).1 <
        p - ((payoffStep mr p)^[k] (b, 0)).1 * mr
    · rw [if_pos hcl] at hk1
      dsimp only at hk1
      simp at hk1
    · rw [if_neg hcl] at hk1 ⊢
      dsimp only at hk1 ⊢
      have hmulbd : ((payoffStep mr p)^[k] (b, 0)).1 * mr ≤ b * max mr 0 := by
        rcases le_or_lt 0 mr with hmr | hmr
        · rw [max_eq_left hmr]
          exact mul_le_mul_of_nonneg_right hrb hmr
        · rw [max_eq_right (le_of_lt hmr)]
          rw [mul_zero]
          exact le_of_lt (mul_neg_of_pos_of_neg hk hmr)
      push_cast
      linarith

/-- Under the hypotheses of claim C3 the simulation terminates: the
balance is eventually cleared. -/
theorem payoff_reaches_zero (mr p b : ℚ) (hb : 0 < b) (hp : 0 < p)
    (hmin : b * mr < p) :
    ∃ n : ℕ, ((payoffStep mr p)^[n] (b, 0)).1 ≤ 0 := by
  by_contra hcon
  push_neg at hcon
  have hδpos : 0 < p - b * max mr 0 := by
    rcases le_or_lt 0 mr with hmr | hmr
    · rw [max_eq_left hmr]; linarith
    · rw [max_eq_right (le_of_lt hmr)]; linarith
  obtain ⟨n, hn⟩ := exists_nat_gt (b / (p - b * max mr 0))
  have hbd := payoffStep_state_bound mr p b hb hp hmin n (fun j _ => hcon j)
  have hpos := hcon n
  have hgt : b < n * (p - b * max mr 0) := by
    rw [div_lt_iff hδpos] at hn
    linarith
  linarith

/-- C3, amended: for every balance, APR and payment with `balance > 0`,
`payment > 0` and `payment > balance * (APR/100/12)`,
`calculate_payoff_time` runs the monthly compounding simulation whose
final (clamped) month charges interest prorated by
`remaining_balance / payment`: it returns the simulation's month count
and its accumulated interest rounded to cents whenever the balance clears
in fewer than 1000 months, and `(-1, -1)` otherwise. -/
theorem calculate_payoff_time_simulates (balance interest_rate payment_amount : ℚ)
    (hb : 0 < balance) (hp : 0 < payment_amount)
    (hmin : balance * (interest_rate / 100 / 12) < payment_amount) :
    ∃ N : ℕ,
      (∀ k < N,
        0 < ((payoffStep (interest_rate / 100 / 12) payment_amount)^[k]
          (balance, 0)).1) ∧
      ((payoffStep (interest_rate / 100 / 12) payment_amount)^[N] (balance, 0)).1 ≤ 0 ∧
      calculate_payoff_time balance interest_rate payment_amount =
        (if N < 1000 then
          ((N : ℤ), quantize2 (((payoffStep (interest_rate / 100 / 12)
            payment_amount)^[N] (balance, 0)).2))
        else (-1, -1)) := by
  have hex := payoff_reaches_zero (interest_rate / 100 / 12) payment_amount
    balance hb hp hmin
  refine ⟨Nat.find hex, ?_, Nat.find_spec hex, ?_⟩
  · intro k hk
    exact not_le.mp (Nat.find_min hex hk)
  · have hNpos : ∀ k < Nat.find hex,
        0 < ((payoffStep (interest_rate / 100 / 12) payment_amount)^[k]
          (balance, 0)).1 := fun k hk => not_le.mp (Nat.find_min hex hk)
    rw [calculate_payoff_time, if_neg (by push_neg; exact ⟨hb, hp⟩)]
    dsimp only
    rw [if_neg (not_le.mpr hmin)]
    by_cases hN : Nat.find hex ≤ 1000
    · rw [payoffLoop_reaches (interest_rate / 100 / 12) payment_amount
        (Nat.find hex) balance 0 1000 0 hN hNpos (Nat.find_spec hex)]
      by_cases hN1000 : Nat.find hex < 1000
      · rw [if_neg (by dsimp only; omega), if_pos hN1000]
        dsimp only
        rw [Nat.zero_add]
      · rw [if_pos (by dsimp only; omega), if_neg hN1000]
    · push_neg at hN
      rw [payoffLoop_runs (interest_rate / 100 / 12) payment_amount
        1000 balance 0 0 (fun k hk => hNpos k (by omega))]
      rw [if_pos (by dsimp only; omega), if_neg (by omega)]

/-- Concrete instance of `calculate_payoff_time_simulates` at
`(100, 12, 60)`. -/
theorem calculate_payoff_time_simulates_witness :
    ∃ N : ℕ,
      (∀ k < N,
        0 < ((payoffStep ((12 : ℚ) / 100 / 12) 60)^[k] ((100 : ℚ), 0)).1) ∧
      ((payoffStep ((12 : ℚ) / 100 / 12) 60)^[N] ((100 : ℚ), 0)).1 ≤ 0 ∧
      calculate_payoff_time 100 12 60 =
        (if N < 1000 then
          ((N : ℤ), quantize2 (((payoffStep ((12 : ℚ) / 100 / 12) 60)^[N]
            ((100 : ℚ), 0)).2))
        else (-1, -1)) :=
  calculate_payoff_time_simulates 100 12 60 (by norm_num) (by norm_num)
    (by norm_num)

/-- C3 counterexample: at `(balance, APR, payment) = (100, 12, 60)` the
hypotheses of claim C3 hold, the claim's simulation clears the balance in
2 months with interest `1.41`, but the code charges the prorated interest
`0.41 * 41/60` in the clamped final month and returns `(2, 1.28)`. -/
theorem payoff_time_claim_counterexample :
    (0 < (100 : ℚ) ∧ 0 < (60 : ℚ) ∧ (100 : ℚ) * (12 / 100 / 12) < 60) ∧
    ¬ payoff_time_claim 100 12 60 := by
  refine ⟨by norm_num, ?_⟩
  intro hcl
  obtain ⟨N, hpos, hz, heq⟩ := hcl
  have hs1 : payoffStepSpec (12 / 100 / 12) 60 ((100 : ℚ), 0) = (41, 1) := by
    norm_num [payoffStepSpec, min_def]
  have hs2 : payoffStepSpec (12 / 100 / 12) 60 ((41 : ℚ), 1) = (0, 141/100) := by
    norm_num [payoffStepSpec, min_def]
  have h1 : (payoffStepSpec (12 / 100 / 12) 60)^[1] ((100 : ℚ), 0) = (41, 1) := by
    rw [Function.iterate_one, hs1]
  have h2 : (payoffStepSpec (12 / 100 / 12) 60)^[2] ((100 : ℚ), 0) = (0, 141/100) := by
    rw [show (2 : ℕ) = 1 + 1 from rfl, Function.iterate_succ_apply', h1, hs2]
  have hcode : calculate_payoff_time 100 12 60 = (2, 32/25) := by
    have h : payoffLoop (1/100) 60 1000 100 0 0 = (2, 7681/6000) := by
      rw [payoffLoop_step_noclamp (by norm_num) (by norm_num) (by norm_num)]
      norm_num
      rw [payoffLoop_step_clamp (by norm_num) (by norm_num) (by norm_num)]
      norm_num
      rw [payoffLoop_stop _ (by norm_num)]
    norm_num [calculate_payoff_time, h, quantize2, roundHalfEven]
  match N with
  | 0 =>
    simp only [Function.iterate_zero, id_eq] at hz
    norm_num at hz
  | 1 =>
    rw [h1] at hz
    norm_num at hz
  | 2 =>
    rw [h2] at heq
    rw [hcode] at heq
    simp only [Prod.mk.injEq] at heq
    norm_num [quantize2, roundHalfEven] at heq
  | (n + 3) =>
    have := hpos 2 (by omega)
    rw [h2] at this
    norm_num at this

end DebtWise
